import Mathlib

/-!
Verification development for the startup-scout pipeline
(discovery → parallel deep-dive enrichment → SSE progress stream).

Shallow embedding of the Python sources:
  * my_agents/final_agents.py   (run_pipeline, deep_dive_all, result shaping,
                                 research_competitors truncation)
  * my_agents/deep_dive_agent.py (deep_dive_parallel)
  * my_agents/discovery_agent.py (linkup_startup_search)
  * my_agents/linkup_tools.py    (linkup_search)
  * backend/main2.py             (run_agent_and_stream SSE generator, cleanup)
  * backend/main.py              (hard-coded run_agent_and_stream SSE generator)

External effects (the Linkup search SDK and the LLM calls) are modelled as
oracle parameters: a search either raises or yields an answer, an LLM call
either raises or yields content, classified by what the downstream regex +
json.loads step would make of it.  Python dicts are modelled as association
lists; a value that may be None is modelled with an explicit null constructor.
-/

/-- Pydantic model CompanyInfo from final_agents.py: the candidate identity
produced by the discovery agent (name, url, country). -/
structure CompanyInfo where
  name : String
  url : String
  country : String
deriving Repr, DecidableEq

/-- Pydantic model AttributeResult from final_agents.py: one enriched
attribute (attribute, value_found, reasoning, optional source_url).
value_found has type str in the source, hence it is never null.
The source field named attribute is rendered attr, attribute being a Lean
keyword. -/
structure AttributeResult where
  attr : String
  value_found : String
  reasoning : String
  source_url : Option String
deriving Repr, DecidableEq

/-- Pydantic model CompanyDeepDiveResponse from final_agents.py: the deep
dive agent structured response for one company. -/
structure CompanyDeepDiveResponse where
  company : String
  url : String
  global_relevance_score : Int
  attributes : List AttributeResult
deriving Repr, DecidableEq

/-- A JSON-ish value as stored in the Python result dictionaries: a string,
an int (the relevance score), or None. -/
inductive JValue where
  | s : String → JValue
  | i : Int → JValue
  | null : JValue
deriving Repr, DecidableEq

/-- True exactly on the null value (Python None). -/
def JValue.isNull : JValue → Bool
  | JValue.null => true
  | _ => false

/-- A Python dict with string keys and JSON-ish values, modelled as an
association list in insertion order (the result records of run_pipeline). -/
abbrev PyRecord := List (String × JValue)

/-- A Python dict with string keys and string values (the company dicts fed
to deep_dive_parallel in deep_dive_agent.py). -/
abbrev PyDict := List (String × String)

/-- Python d.get(key) on an association-list dict: first binding wins
(keys of an already-built dict are unique). -/
def pyDictGet {α : Type} (d : List (String × α)) (k : String) : Option α :=
  (d.find? (fun kv => kv.1 == k)).map (fun kv => kv.2)

/-- Lookup in a PyRecord, modelling record.get(key) / key-membership tests. -/
def lookupJ (d : PyRecord) (k : String) : Option JValue :=
  pyDictGet d k

/-- Python attr_dict = (a.attribute: a.value_found for a in details.attributes)
followed by attr_dict.get(key, dflt): a dict comprehension keeps the LAST
entry for a repeated key, so we search the reversed list. -/
def attrDictGet (attrs : List AttributeResult) (key dflt : String) : String :=
  match attrs.reverse.find? (fun a => a.attr == key) with
  | some a => a.value_found
  | none => dflt

/-- The fixed 8-field attribute schema from run_pipeline in final_agents.py
(lines 212-216), assigned when the attributes argument is None. -/
def fullFixedSchema : List String :=
  ["name", "url", "country", "description",
   "founding_year", "funding_stage", "ARR", "market_sector"]

/-- The attribute normalisation at the top of run_pipeline: Python tests
attributes is None (not emptiness), so only the absent case gets the
default schema. -/
def run_pipeline_attributes : Option (List String) → List String
  | none => fullFixedSchema
  | some l => l

/-- Result shaping in run_pipeline (final_agents.py lines 233-246): flatten a
CompanyDeepDiveResponse into the fixed-key result dictionary, defaulting
missing attributes to the sentinel, and always adding the relevance score. -/
def shape_result (details : CompanyDeepDiveResponse) : PyRecord :=
  [("name", JValue.s (attrDictGet details.attributes "name" details.company)),
   ("url", JValue.s (attrDictGet details.attributes "url" details.url)),
   ("country", JValue.s (attrDictGet details.attributes "country" "Unknown")),
   ("description", JValue.s (attrDictGet details.attributes "description" "Unknown")),
   ("founding_year", JValue.s (attrDictGet details.attributes "founding_year" "Unknown")),
   ("funding_stage", JValue.s (attrDictGet details.attributes "funding_stage" "Unknown")),
   ("ARR", JValue.s (attrDictGet details.attributes "ARR" "Unknown")),
   ("market_sector", JValue.s (attrDictGet details.attributes "market_sector" "Unknown")),
   ("global_relevance_score", JValue.i details.global_relevance_score)]

/-- The keys of every record produced by shape_result, in order. -/
def resultRecordKeys : List String :=
  ["name", "url", "country", "description", "founding_year",
   "funding_stage", "ARR", "market_sector", "global_relevance_score"]

/-- deep_dive_all from final_agents.py (lines 193-199): asyncio.gather over
one _deep_dive_single task per company.  gather returns results in task
order; _deep_dive_single catches every exception and returns None, which we
model by the oracle returning Option.  The oracle stands for
the agent invocation inside _deep_dive_single and receives the same inputs
(company, user_prompt, attributes). -/
def deep_dive_all
    (enrich : CompanyInfo → String → List String → Option CompanyDeepDiveResponse)
    (companies : List CompanyInfo) (user_prompt : String) (attributes : List String) :
    List (Option CompanyDeepDiveResponse) :=
  companies.map (fun c => enrich c user_prompt attributes)

/-- run_pipeline from final_agents.py (lines 204-248), after the discovery
agent call: the discovered candidate list is a parameter (the discovery agent
is an external LLM call).  Steps: normalise attributes, early-return on an
empty candidate list, fan out deep_dive_all, then shape only the non-None
results (the Python loop body runs under if details:). -/
def run_pipeline
    (enrich : CompanyInfo → String → List String → Option CompanyDeepDiveResponse)
    (companies : List CompanyInfo) (investment_thesis : String)
    (attributes : Option (List String)) : List PyRecord :=
  let attrs := run_pipeline_attributes attributes
  if companies.isEmpty then []
  else
    (deep_dive_all enrich companies investment_thesis attrs).filterMap
      (fun details => details.map shape_result)

/-- The competitor truncation in research_competitors (final_agents.py
line 350): competitors[:limit]. -/
def research_competitors_select (competitors : List CompanyInfo) (limit : Nat) :
    List CompanyInfo :=
  competitors.take limit

/-- deep_dive_parallel from deep_dive_agent.py (lines 241-286): a
ThreadPoolExecutor submits one _enrich_company future per company and
collects results with as_completed, so the collection order is some
permutation of the input (a theorem hypothesis).  A future that raised has
the ORIGINAL company dict appended instead (lines 279-283). -/
def deep_dive_parallel (enrich : PyDict → Except String PyDict)
    (completion_order : List PyDict) : List PyDict :=
  completion_order.map (fun c =>
    match enrich c with
    | Except.ok e => e
    | Except.error _ => c)

/-- One extracted company object from the JSON array of linkup_startup_search
(discovery_agent.py line 118): keys Company Name, Website, Description,
Location, Industry, Funding Stage, ARR. -/
structure ExtractedCompany where
  companyName : String
  website : String
  description : String
  location : String
  industry : String
  fundingStage : String
  arr : String
deriving Repr, DecidableEq

/-- What the regex + json.loads step of linkup_startup_search (discovery_agent.py
lines 127-140) makes of the LLM content string: no bracketed substring at
all, a substring that fails json.loads, or a parsed company array. -/
inductive LLMContent where
  | noJson : LLMContent
  | badJson : LLMContent
  | jsonList : List ExtractedCompany → LLMContent
deriving Repr, DecidableEq

/-- Outcome of llm_instance.invoke in linkup_startup_search: the call raised,
or returned content (classified by the downstream parse). -/
inductive LLMResult where
  | invokeError : String → LLMResult
  | content : LLMContent → LLMResult
deriving Repr, DecidableEq

/-- Outcome of client.search in linkup_startup_search (discovery_agent.py
line 67): the SDK call raised (missing API key, non-200, network failure),
or returned a response whose extracted answer text is the given string
(the no-answer case degenerates to str(response), still this constructor). -/
inductive SearchOutcome where
  | raised : String → SearchOutcome
  | ok : String → SearchOutcome
deriving Repr, DecidableEq

/-- linkup_startup_search from discovery_agent.py (lines 29-144).  Control
flow: client.search is called OUTSIDE any try block, so a raising search
propagates (Except.error).  On success, the answer text is handed to the LLM
extraction oracle (which receives the thesis and the answer, as the
extraction prompt does); a missing LLM returns the empty JSON list, and the
try/except around invoke + json.loads turns an LLM exception, an unmatched
regex or unparsable JSON into the empty list.  A parsed company array is
returned as-is: no check against the answer text is performed. -/
def linkup_startup_search (investment_thesis : String) (search : SearchOutcome)
    (llm : Option (String → String → LLMResult)) :
    Except String (List ExtractedCompany) :=
  match search with
  | SearchOutcome.raised msg => Except.error msg
  | SearchOutcome.ok answer =>
    match llm with
    | none => Except.ok []
    | some f =>
      match f investment_thesis answer with
      | LLMResult.invokeError _ => Except.ok []
      | LLMResult.content LLMContent.noJson => Except.ok []
      | LLMResult.content LLMContent.badJson => Except.ok []
      | LLMResult.content (LLMContent.jsonList companies) => Except.ok companies

/-- Contiguous-sublist test on character lists. -/
def charListContains (needle : List Char) : List Char → Bool
  | [] => needle.isEmpty
  | c :: rest => needle.isPrefixOf (c :: rest) || charListContains needle rest

/-- Character-wise lowercasing (structurally recursive, unlike
String.toLower, so that concrete instances evaluate). -/
def lowerStr (s : String) : String :=
  String.mk (s.data.map Char.toLower)

/-- Case-insensitive verbatim containment: needle appears as a substring of
haystack ignoring case.  This is the property the spec demands of every
returned company name with respect to the raw search answer. -/
def containsCI (haystack needle : String) : Bool :=
  charListContains (lowerStr needle).data (lowerStr haystack).data

/-- Normalised key for the deduplication wording of the spec (case-insensitive
name/url comparison). -/
def normKey (s : String) : String := lowerStr s

/-- Pydantic model LinkupSearchResponse from linkup_tools.py, with the value
type of the raw dict abstracted (Any in the source).  status_code is never
assigned anywhere in linkup_search, so it stays none. -/
structure LinkupSearchResponse (α : Type) where
  success : Bool
  status_code : Option Int := none
  raw : List (String × α) := []
  results : Option α := none
  error : Option String := none
deriving Repr, DecidableEq

/-- linkup_search from linkup_tools.py (lines 65-112): client construction
failure and SDK search failure are each caught and turned into a
success=false response carrying the message; a successful search stores the
normalised raw dict and raw.get("results").  The function is total: it never
propagates an exception. -/
def linkup_search {α : Type} (client : Except String Unit)
    (sdk : Except String (List (String × α))) : LinkupSearchResponse α :=
  match client with
  | Except.error e => { success := false, error := some e }
  | Except.ok _ =>
    match sdk with
    | Except.error e => { success := false, error := some e }
    | Except.ok raw =>
      { success := true, raw := raw, results := pyDictGet raw "results" }

/-- A server-sent event of the scout stream: a status line, the terminal
complete payload (success flag and result records), or the terminal error
payload. -/
inductive Event where
  | status : String → Event
  | complete : Bool → List PyRecord → Event
  | error : String → Event
deriving Repr, DecidableEq

/-- Terminal events are complete and error. -/
def Event.isTerminal : Event → Bool
  | Event.complete _ _ => true
  | Event.error _ => true
  | Event.status _ => false

/-- Status events. -/
def Event.isStatus : Event → Bool
  | Event.status _ => true
  | _ => false

/-- Error events. -/
def Event.isError : Event → Bool
  | Event.error _ => true
  | _ => false

/-- Investment-thesis construction in run_agent_and_stream (main2.py lines
182-186): append the location and, unless it is empty or "any", the funding
stage. -/
def build_thesis (criteria location funding_stage : String) : String :=
  let t := criteria
  let t := if location == "" then t else t ++ " in " ++ location
  if funding_stage == "" || funding_stage.toLower == "any" then t
  else t ++ ", " ++ funding_stage ++ " stage"

/-- The None-scrubbing loop of run_agent_and_stream (main2.py lines 215-219):
each None value is replaced by the sentinel string N/A. -/
def cleanValue : JValue → JValue
  | JValue.null => JValue.s "N/A"
  | v => v

/-- Per-record cleanup: same keys, scrubbed values. -/
def cleanDict (d : PyRecord) : PyRecord :=
  d.map (fun kv => (kv.1, cleanValue kv.2))

/-- run_agent_and_stream from backend/main2.py (lines 169-225), as the event
sequence it yields.  The pipeline call is a parameter: Except.error stands
for any exception raised inside the try block, which the except arm replaces
by the empty result list (lines 205-209).  The stream then always ends with
the single complete event; no error event exists on this path. -/
def run_agent_and_stream (pipeline : Except String (List PyRecord))
    (criteria location funding_stage : String) : List Event :=
  let investment_thesis := build_thesis criteria location funding_stage
  let results : List PyRecord :=
    match pipeline with
    | Except.ok r => r
    | Except.error _ => []
  let cleaned_results := results.map cleanDict
  [Event.status "🚀 Starting Startup Scout...",
   Event.status ("🔍 Searching for: " ++ investment_thesis),
   Event.status "🔍 Running consolidated pipeline...",
   Event.status ("📦 Found " ++ toString results.length ++ " companies"),
   Event.status ("✅ Complete! Found " ++ toString cleaned_results.length ++ " companies"),
   Event.complete true cleaned_results]

/-- The result list carried by the terminal complete event of
run_agent_and_stream: the pipeline results (empty after a swallowed
exception), scrubbed of None values. -/
def pipeline_stream_results (pipeline : Except String (List PyRecord)) :
    List PyRecord :=
  (match pipeline with
   | Except.ok r => r
   | Except.error _ => []).map cleanDict

/-- run_agent_and_stream from backend/main.py (lines 164-178): a hard-coded
script of seven status events followed by one complete event whose payload
carries success true and no results. -/
def main_run_agent_and_stream (_criteria : String) (_attributes : List String)
    (_email : String) : List Event :=
  [Event.status "Setting up agent environment...",
   Event.status "🔍 Running Discovery Agent with criteria...",
   Event.status "✅ Found **5** potential startups for deep dive.",
   Event.status "⚙️ Analyzing startup 1 of 5 (Deep Dive Agent)...",
   Event.status "⚙️ Analyzing startup 2 of 5 (Deep Dive Agent)...",
   Event.status "📧 Generating final report and preparing email for delivery...",
   Event.status "📬 Report successfully generated and sent to your email!",
   Event.complete true []]

/-- Helper: for a non-empty candidate list, run_pipeline produces exactly the
shaped record of each successfully enriched candidate, in candidate order,
and nothing for a candidate whose enrichment returned None. -/
theorem run_pipeline_eq_enriched
    (enrich : CompanyInfo → String → List String → Option CompanyDeepDiveResponse)
    (companies : List CompanyInfo) (thesis : String) (attrs : Option (List String))
    (h : companies ≠ []) :
    run_pipeline enrich companies thesis attrs =
      (companies.filterMap
        (fun c => enrich c thesis (run_pipeline_attributes attrs))).map shape_result := by
  cases companies with
  | nil => exact absurd rfl h
  | cons c cs =>
    show ((c :: cs).map
        (fun c => enrich c thesis (run_pipeline_attributes attrs))).filterMap
        (fun details => details.map shape_result) = _
    rw [List.filterMap_map, List.map_filterMap]
    rfl

/-- Helper: the None-scrub of a value is never null. -/
theorem cleanValue_not_null (v : JValue) : (cleanValue v).isNull = false := by
  cases v <;> rfl

/-- C9 (implicit): the gather step preserves length and order — deep_dive_all
returns one entry per input company and its i-th entry is exactly the
enrichment outcome of the i-th input company. -/
theorem C9_deep_dive_all_preserves_order
    (enrich : CompanyInfo → String → List String → Option CompanyDeepDiveResponse)
    (companies : List CompanyInfo) (user_prompt : String)
    (attributes : List String) (i : Nat) :
    (deep_dive_all enrich companies user_prompt attributes).length = companies.length ∧
    (deep_dive_all enrich companies user_prompt attributes)[i]? =
      (companies[i]?).map (fun c => enrich c user_prompt attributes) := by
  constructor
  · simp [deep_dive_all]
  · simp [deep_dive_all]

/-- Concrete candidates and enrichment oracle for the conservation claim:
enrichment succeeds for Alpha Robotics and fails (returns None, the
_deep_dive_single exception path) for every other candidate. -/
def cAlpha : CompanyInfo :=
  { name := "Alpha Robotics", url := "https://alpha.example", country := "Germany" }

/-- Second candidate of the conservation counterexample. -/
def cBeta : CompanyInfo :=
  { name := "Beta Health", url := "https://beta.example", country := "France" }

/-- Deep dive response returned for Alpha Robotics. -/
def respAlpha : CompanyDeepDiveResponse :=
  { company := "Alpha Robotics", url := "https://alpha.example",
    global_relevance_score := 85, attributes := [] }

/-- Enrichment oracle that fails for every candidate except Alpha Robotics. -/
def enrichDropsBeta : CompanyInfo → String → List String → Option CompanyDeepDiveResponse :=
  fun c _ _ => if c.name == "Alpha Robotics" then some respAlpha else none

/-- C1 counterexample: with two discovered candidates of which one
enrichment fails, run_pipeline returns a single record — the failed
candidate is silently dropped, not replaced by a degraded fallback, so the
output does NOT contain exactly one record per input candidate. -/
theorem C1_counterexample :
    ([cAlpha, cBeta] : List CompanyInfo).length = 2 ∧
    (run_pipeline enrichDropsBeta [cAlpha, cBeta] "robotics and health startups" none).length
      = 1 := by decide

/-- C1 (amended): the fan-out itself conserves candidates — deep_dive_all
yields one entry (result or None) per candidate and deep_dive_parallel yields
one record per candidate (the original dict on failure) in any completion
order — and the failure of one candidate does not abort the others; but
the result shaping of run_pipeline keeps only the successfully enriched
candidates, dropping failed ones from its output. -/
theorem C1_conservation_amended
    (enrichP : PyDict → Except String PyDict)
    (completion_order companiesP : List PyDict)
    (hperm : completion_order.Perm companiesP)
    (enrich : CompanyInfo → String → List String → Option CompanyDeepDiveResponse)
    (companies : List CompanyInfo) (thesis : String) (attrs : Option (List String))
    (hne : companies ≠ []) :
    (deep_dive_parallel enrichP completion_order).length = companiesP.length ∧
    (deep_dive_all enrich companies thesis (run_pipeline_attributes attrs)).length
      = companies.length ∧
    run_pipeline enrich companies thesis attrs =
      (companies.filterMap
        (fun c => enrich c thesis (run_pipeline_attributes attrs))).map shape_result := by
  refine ⟨?_, ?_, run_pipeline_eq_enriched enrich companies thesis attrs hne⟩
  · simpa [deep_dive_parallel] using hperm.length_eq
  · simp [deep_dive_all]

/-- Company dict for the deep_dive_parallel part of the C1 witness. -/
def pdGamma : PyDict :=
  [("Company Name", "Gamma Labs"), ("Website", "https://gamma.example")]

/-- Second company dict for the deep_dive_parallel part of the C1 witness. -/
def pdDelta : PyDict :=
  [("Company Name", "Delta Systems"), ("Website", "https://delta.example")]

/-- Oracle for the C1 witness: every thread-pool enrichment succeeds with
the input dict unchanged. -/
def enrichPId : PyDict → Except String PyDict := fun c => Except.ok c

/-- C1 witness: the amended conservation statement evaluated at concrete
candidates, with a completion order that permutes the input. -/
theorem C1_conservation_amended_witness :
    (deep_dive_parallel enrichPId [pdDelta, pdGamma]).length
      = ([pdGamma, pdDelta] : List PyDict).length ∧
    (deep_dive_all enrichDropsBeta [cAlpha] "t" (run_pipeline_attributes none)).length
      = ([cAlpha] : List CompanyInfo).length ∧
    run_pipeline enrichDropsBeta [cAlpha] "t" none =
      (([cAlpha] : List CompanyInfo).filterMap
        (fun c => enrichDropsBeta c "t" (run_pipeline_attributes none))).map shape_result :=
  C1_conservation_amended enrichPId [pdDelta, pdGamma] [pdGamma, pdDelta]
    (List.Perm.swap pdGamma pdDelta []) enrichDropsBeta [cAlpha] "t" none (by decide)

/-- C5 counterexample: the run_pipeline default kicks in only when attributes
is None; an explicitly empty attribute list stays empty and the enrichment
is NOT run with the full fixed 8-field schema. -/
theorem C5_counterexample :
    run_pipeline_attributes (some []) = [] ∧
    run_pipeline_attributes (some []) ≠ fullFixedSchema := by decide

/-- C5 (amended): the full fixed 8-field schema is substituted exactly when
the attributes argument is absent (None); any caller-supplied list,
including the empty one, is passed to enrichment unchanged. -/
theorem C5_default_amended :
    run_pipeline_attributes none = fullFixedSchema ∧
    ∀ l : List String, run_pipeline_attributes (some l) = l :=
  ⟨rfl, fun _ => rfl⟩

/-- Candidate for the deduplication counterexample. -/
def cFoo1 : CompanyInfo :=
  { name := "Foo AI", url := "https://foo.ai", country := "Germany" }

/-- Second candidate: same url and same name up to case. -/
def cFoo2 : CompanyInfo :=
  { name := "FOO AI", url := "https://foo.ai", country := "Germany" }

/-- Enrichment oracle that succeeds for every candidate, echoing its
identity fields. -/
def enrichEcho : CompanyInfo → String → List String → Option CompanyDeepDiveResponse :=
  fun c _ _ =>
    some { company := c.name, url := c.url, global_relevance_score := 70, attributes := [] }

/-- Deep dive response echoing cFoo1, used by the C8 witness. -/
def respFoo1 : CompanyDeepDiveResponse :=
  { company := "Foo AI", url := "https://foo.ai", global_relevance_score := 70,
    attributes := [] }

/-- C8 counterexample: two discovered candidates sharing a normalized name
and a normalized url flow through run_pipeline untouched — both are
enriched and both records are returned, so the discovery stage output is
not deduplicated by normalized name or url (and run_pipeline has no
max_candidates bound to truncate to). -/
theorem C8_counterexample :
    normKey cFoo1.name = normKey cFoo2.name ∧
    normKey cFoo1.url = normKey cFoo2.url ∧
    (run_pipeline enrichEcho [cFoo1, cFoo2] "ai startups" none).length = 2 := by decide

/-- C8 (amended): no programmatic deduplication exists — duplicate
candidates each produce their own output record (dedup is delegated to a
prompt instruction) and run_pipeline takes no max_candidates bound; the only
truncation in the code is research_competitors slicing its competitor list
to the limit argument. -/
theorem C8_truncation_amended
    (competitors : List CompanyInfo) (limit : Nat)
    (enrich : CompanyInfo → String → List String → Option CompanyDeepDiveResponse)
    (c : CompanyInfo) (d : CompanyDeepDiveResponse)
    (thesis : String) (attrs : Option (List String))
    (h : enrich c thesis (run_pipeline_attributes attrs) = some d) :
    (research_competitors_select competitors limit).length ≤ limit ∧
    run_pipeline enrich [c, c] thesis attrs = [shape_result d, shape_result d] := by
  constructor
  · simp [research_competitors_select]
  · rw [run_pipeline_eq_enriched enrich [c, c] thesis attrs (by simp)]
    simp [List.filterMap_cons, h]

/-- C8 witness: the amended statement at concrete inputs — a 2-element
competitor list truncated to 5, and a duplicated candidate yielding two
identical records. -/
theorem C8_truncation_amended_witness :
    (research_competitors_select [cFoo1, cFoo2] 5).length ≤ 5 ∧
    run_pipeline enrichEcho [cFoo1, cFoo1] "ai startups" none =
      [shape_result respFoo1, shape_result respFoo1] :=
  C8_truncation_amended [cFoo1, cFoo2] 5 enrichEcho cFoo1 respFoo1 "ai startups" none
    (by decide)

/-- C2: terminal singularity of the SSE generators — for every pipeline
outcome and request, the scout stream of backend/main2.py and the hard-coded
stream of backend/main.py each consist of status events followed by exactly
one terminal event (complete or error) in last position, with no status
event after it. -/
theorem C2_terminal_singularity
    (pipeline : Except String (List PyRecord))
    (criteria location funding_stage email : String) (attributes : List String) :
    ((run_agent_and_stream pipeline criteria location funding_stage).countP
        Event.isTerminal = 1 ∧
     (run_agent_and_stream pipeline criteria location funding_stage).dropLast.all
        Event.isStatus = true ∧
     ((run_agent_and_stream pipeline criteria location funding_stage).getLast?.map
        Event.isTerminal) = some true) ∧
    ((main_run_agent_and_stream criteria attributes email).countP Event.isTerminal = 1 ∧
     (main_run_agent_and_stream criteria attributes email).dropLast.all
        Event.isStatus = true ∧
     ((main_run_agent_and_stream criteria attributes email).getLast?.map
        Event.isTerminal) = some true) := by
  cases pipeline <;> exact ⟨⟨rfl, rfl, rfl⟩, ⟨rfl, rfl, rfl⟩⟩

/-- C7: empty discovery is not an error — run_pipeline returns the empty
list for zero candidates, and the scout stream both on a swallowed pipeline
exception and on an empty pipeline result emits no error event and
terminates with the complete event carrying empty results. -/
theorem C7_empty_discovery_not_error
    (enrich : CompanyInfo → String → List String → Option CompanyDeepDiveResponse)
    (thesis : String) (attrs : Option (List String))
    (errMsg criteria location funding_stage : String) :
    run_pipeline enrich [] thesis attrs = [] ∧
    (run_agent_and_stream (Except.error errMsg) criteria location funding_stage).countP
      Event.isError = 0 ∧
    (run_agent_and_stream (Except.error errMsg) criteria location funding_stage).getLast?
      = some (Event.complete true []) ∧
    (run_agent_and_stream (Except.ok []) criteria location funding_stage).countP
      Event.isError = 0 ∧
    (run_agent_and_stream (Except.ok []) criteria location funding_stage).getLast?
      = some (Event.complete true []) :=
  ⟨rfl, rfl, rfl, rfl, rfl⟩

/-- C10 (implicit): the scout stream always reports success — whatever the
pipeline does (including raising, which the except arm swallows into an
empty result list), the stream emits no error event and its terminal event
is complete with success true and the scrubbed results. -/
theorem C10_scout_stream_always_complete
    (pipeline : Except String (List PyRecord))
    (criteria location funding_stage : String) :
    (run_agent_and_stream pipeline criteria location funding_stage).countP
      Event.isError = 0 ∧
    (run_agent_and_stream pipeline criteria location funding_stage).getLast? =
      some (Event.complete true (pipeline_stream_results pipeline)) := by
  cases pipeline <;> exact ⟨rfl, rfl⟩

/-- C3 counterexample: a failing search call (missing API key, non-200,
network exception) raises out of linkup_startup_search instead of degrading
to an empty list — the client.search call sits outside every try block. -/
theorem C3_counterexample :
    linkup_startup_search "AI startups in London"
      (SearchOutcome.raised "ConnectionError: search request failed")
      (some (fun _ _ => LLMResult.content (LLMContent.jsonList []))) =
    Except.error "ConnectionError: search request failed" := rfl

/-- C3 (amended): once the search call has returned, linkup_startup_search
never raises — a missing LLM, a raising LLM invocation, an answer with no
JSON array, or unparsable JSON all yield the empty list; but a failing
search call itself propagates its exception past the discovery boundary.
The lower-level linkup_search of linkup_tools.py does degrade both client
construction failure and SDK search failure to a success=false response
carrying the message instead of raising. -/
theorem C3_degradation_amended
    (thesis answer msg : String) (f : String → String → LLMResult)
    (sdk : Except String (List (String × String))) :
    (∃ l, linkup_startup_search thesis (SearchOutcome.ok answer) (some f) = Except.ok l) ∧
    linkup_startup_search thesis (SearchOutcome.ok answer) none = Except.ok [] ∧
    linkup_startup_search thesis (SearchOutcome.ok answer)
      (some (fun _ _ => LLMResult.invokeError msg)) = Except.ok [] ∧
    linkup_startup_search thesis (SearchOutcome.ok answer)
      (some (fun _ _ => LLMResult.content LLMContent.noJson)) = Except.ok [] ∧
    linkup_startup_search thesis (SearchOutcome.ok answer)
      (some (fun _ _ => LLMResult.content LLMContent.badJson)) = Except.ok [] ∧
    linkup_startup_search thesis (SearchOutcome.raised msg) (some f) = Except.error msg ∧
    (linkup_search (Except.error msg) sdk).success = false ∧
    (linkup_search (Except.error msg) sdk).error = some msg ∧
    (linkup_search (Except.ok ()) (Except.error msg) : LinkupSearchResponse String).success
      = false ∧
    (linkup_search (Except.ok ()) (Except.error msg) : LinkupSearchResponse String).error
      = some msg := by
  refine ⟨?_, rfl, rfl, rfl, rfl, rfl, rfl, rfl, rfl, rfl⟩
  cases h : f thesis answer with
  | invokeError m => exact ⟨[], by simp [linkup_startup_search, h]⟩
  | content c =>
    cases c with
    | noJson => exact ⟨[], by simp [linkup_startup_search, h]⟩
    | badJson => exact ⟨[], by simp [linkup_startup_search, h]⟩
    | jsonList companies => exact ⟨companies, by simp [linkup_startup_search, h]⟩

/-- The LLM extraction output of the fabrication counterexample: one company
whose name does not occur in the search answer. -/
def fabricatedList : List ExtractedCompany :=
  [{ companyName := "Bar Inc", website := "https://bar.example",
     description := "A fintech.", location := "Berlin, Germany",
     industry := "Fintech", fundingStage := "Seed", arr := "N/A" }]

/-- The raw search answer of the fabrication counterexample: it mentions
Foo Corp and nowhere contains the name Bar Inc. -/
def answerFoo : String :=
  "The search identified Foo Corp, a fintech startup headquartered in Berlin."

/-- C4 counterexample: an extraction output naming a company absent from the
raw search answer is returned as-is by linkup_startup_search — the name
Bar Inc does not appear (even case-insensitively) in the answer, yet no
rejection happens. -/
theorem C4_counterexample :
    linkup_startup_search "fintech startups in Berlin" (SearchOutcome.ok answerFoo)
      (some (fun _ _ => LLMResult.content (LLMContent.jsonList fabricatedList))) =
      Except.ok fabricatedList ∧
    containsCI answerFoo "Bar Inc" = false :=
  ⟨rfl, by decide⟩

/-- C4 (amended): the no-fabrication constraint lives only in the prompt
text handed to the LLM; the code performs no verbatim-presence check —
whatever company array the extraction LLM produces is returned unchanged,
whether or not its names occur in the raw search answer. -/
theorem C4_no_fabrication_amended
    (thesis answer : String) (companies : List ExtractedCompany) :
    linkup_startup_search thesis (SearchOutcome.ok answer)
      (some (fun _ _ => LLMResult.content (LLMContent.jsonList companies))) =
      Except.ok companies := rfl

/-- Deep dive response of the sentinel counterexample: the agent was asked
for the requested attribute Founders and returned it. -/
def detailsFounders : CompanyDeepDiveResponse :=
  { company := "Acme Analytics", url := "https://acme.example",
    global_relevance_score := 77,
    attributes := [{ attr := "Founders", value_found := "Jane Doe",
                     reasoning := "company site", source_url := none }] }

/-- Enrichment oracle returning detailsFounders for every candidate. -/
def enrichFounders : CompanyInfo → String → List String → Option CompanyDeepDiveResponse :=
  fun _ _ _ => some detailsFounders

/-- Candidate of the sentinel counterexample. -/
def cAcme : CompanyInfo :=
  { name := "Acme Analytics", url := "https://acme.example", country := "USA" }

/-- C6 counterexample: with the requested attribute list containing
Founders, the pipeline result record has no Founders key at all — the
shaping keeps only the fixed 8 schema fields plus the relevance score, so a
requested attribute outside that schema is a missing key, not a sentinel. -/
theorem C6_counterexample :
    "Founders" ∈ (["Founders"] : List String) ∧
    run_pipeline enrichFounders [cAcme] "analytics startups" (some ["Founders"]) =
      [shape_result detailsFounders] ∧
    lookupJ (shape_result detailsFounders) "Founders" = none := by decide

/-- C6 (amended): every record in the run_pipeline results carries exactly the
fixed 8 schema keys plus global_relevance_score — each with a non-null value
(the Unknown sentinel when unresolved) and the relevance score always
present — and the scrub step of the stream keeps the keys and replaces any null
by the N/A sentinel; requested attributes outside the fixed schema are
simply not keys of the record. -/
theorem C6_sentinel_amended (details : CompanyDeepDiveResponse) (r : PyRecord) :
    (shape_result details).map Prod.fst = resultRecordKeys ∧
    (shape_result details).all (fun kv => !kv.2.isNull) = true ∧
    lookupJ (shape_result details) "global_relevance_score" =
      some (JValue.i details.global_relevance_score) ∧
    (cleanDict r).map Prod.fst = r.map Prod.fst ∧
    (cleanDict r).all (fun kv => !kv.2.isNull) = true := by
  refine ⟨rfl, rfl, rfl, by simp [cleanDict], ?_⟩
  simp only [cleanDict, List.all_map, List.all_eq_true]
  intro kv _
  simp [cleanValue_not_null]
